import Mathlib

/-!
# RentPlatform GLI — Policy & Claims Lifecycle Engine, shallow embedding

A shallow embedding of the policy/claims core of the RentPlatform_GLI
repository, together with theorems settling the frozen claims about it.

The embedding covers:
* the Derivation Engine of the policy form
  (`client/src/components/property-form/index.tsx`): premium computation
  (`Math.round(rent * 0.03 * months * riskMultiplier)`) and end-date
  computation (JS `Date.setMonth` month addition);
* the backend zod insert schemas (`src/database/schema.ts`) and the
  client-side zod schemas (`client/src/types/schema/…`);
* the policy controller (`src/controllers/policyController.ts`):
  `createPolicy`, `updatePolicyStatus`, `deletePolicy`, over an explicit
  entity-store state.

Machine reals (JS numbers) are embedded as `ℚ`; timestamps as `ℤ`;
identifiers as `ℕ`.  Storage-layer functions that are not part of the
sources (`storage.createPolicy`, `storage.updatePolicy`,
`storage.deletePolicy`) are modelled from the spec and marked as such.
-/

namespace RentPlatform

/-! ## Derivation Engine: premium

From `client/src/components/property-form/index.tsx`, lines 263–278:

```js
const riskMultiplier = selectedRiskScore < 50 ? 1.5 : selectedRiskScore < 75 ? 1.0 : 0.8;
const premium = monthlyRent * 0.03 * coverageMonths * riskMultiplier;
form.setValue("premiumAmount", Math.round(premium));
```
-/

/-- JS `Math.round`: nearest integer, ties (x.5) round toward +∞,
i.e. `Math.round(x) = ⌊x + 0.5⌋`. -/
def jsRound (q : ℚ) : ℤ := ⌊q + 1/2⌋

/-- The risk multiplier of the policy form, exactly as the source's
conditional chain `s < 50 ? 1.5 : s < 75 ? 1.0 : 0.8`. -/
def riskMultiplier (s : ℚ) : ℚ :=
  if s < 50 then 3/2 else if s < 75 then 1 else 4/5

/-- The raw premium product `monthlyRent * 0.03 * coverageMonths *
riskMultiplier` before rounding. -/
def computePremium (monthlyRent coverageMonths riskScore : ℚ) : ℚ :=
  monthlyRent * (3/100) * coverageMonths * riskMultiplier riskScore

/-- The value the policy form stores in `premiumAmount`:
`Math.round(premium)`. -/
def formPremiumAmount (monthlyRent coverageMonths riskScore : ℚ) : ℤ :=
  jsRound (computePremium monthlyRent coverageMonths riskScore)

/-- The risk multiplier as the spec words it: 1.5 when s < 50, 1.0 when
50 ≤ s < 75, 0.8 when s ≥ 75 (kept separate from `riskMultiplier`, which
transcribes the source, so that agreement is a theorem). -/
def riskMultiplierSpec (s : ℚ) : ℚ :=
  if s < 50 then 3/2
  else if 50 ≤ s ∧ s < 75 then 1
  else 4/5

/-- Rounding to two decimal places (the currency minor unit), as the spec
words it: `round(q * 100) / 100` with round-half-up. -/
def roundToCents (q : ℚ) : ℚ := (jsRound (q * 100) : ℚ) / 100

/-! ## Derivation Engine: coverage end date

From `client/src/components/property-form/index.tsx`, lines 251–261:

```js
const start = new Date(startDate);
const end = new Date(start);
end.setMonth(end.getMonth() + coverageMonths);
form.setValue("endDate", end.toISOString().split("T")[0]);
```

`Date.prototype.setMonth(n)` sets the month field (with year carry) and
keeps the day-of-month; a day-of-month past the end of the target month is
normalised by rolling the excess days into the following month (it is not
clamped).  Dates are embedded as `(year, month, day) : ℤ × ℤ × ℤ` with
1-based months. -/

/-- Gregorian leap year. -/
def isLeap (y : ℤ) : Bool := (y % 4 == 0 && y % 100 != 0) || (y % 400 == 0)

/-- Length of month `m` (1-based) of year `y`. -/
def daysInMonth (y m : ℤ) : ℤ :=
  if m = 2 then (if isLeap y then 29 else 28)
  else if m = 4 ∨ m = 6 ∨ m = 9 ∨ m = 11 then 30
  else 31

/-- A well-formed calendar date. -/
def dateValid (y m d : ℤ) : Prop :=
  1 ≤ m ∧ m ≤ 12 ∧ 1 ≤ d ∧ d ≤ daysInMonth y m

instance (y m d : ℤ) : Decidable (dateValid y m d) := by
  unfold dateValid; infer_instance

/-- JS `date.setMonth(date.getMonth() + k)`: month-field addition with
year carry, keeping the day-of-month; if the day overflows the target
month it rolls into the following month (at most 3 days of overflow can
occur from a valid date, so a single roll suffices). -/
def jsAddMonths (y m d k : ℤ) : ℤ × ℤ × ℤ :=
  let t := 12 * y + (m - 1) + k
  let y1 := t / 12
  let m1 := t % 12 + 1
  if d ≤ daysInMonth y1 m1 then (y1, m1, d)
  else
    let d2 := d - daysInMonth y1 m1
    if m1 = 12 then (y1 + 1, 1, d2) else (y1, m1 + 1, d2)

/-- The form's end-date effect: it recomputes only when both `startDate`
and `coverageMonths` are truthy (`if (startDate && coverageMonths)`), so
`coverageMonths = 0` yields no recomputation. -/
def formEndDate (y m d k : ℤ) : Option (ℤ × ℤ × ℤ) :=
  if k ≠ 0 then some (jsAddMonths y m d k) else none

/-- Calendar-month addition as conventionally specified (clamping the day
to the length of the target month); kept separate from `jsAddMonths` so
that their disagreement is a theorem. -/
def addMonthsClamp (y m d k : ℤ) : ℤ × ℤ × ℤ :=
  let t := 12 * y + (m - 1) + k
  (t / 12, t % 12 + 1, min d (daysInMonth (t / 12) (t % 12 + 1)))

/-! ## Entity store

Records as declared by the Drizzle tables in `src/database/schema.ts`
(`policies`, `claims`, `landlords`, `properties`, `tenants`), with
identifiers as `ℕ`, varchar statuses as `String`, decimals as `ℚ` and
timestamps as `ℤ`.  The `policies` table declares
`tenant_id … .unique()` and `policy_number … .unique()`. -/

structure Landlord where
  id : ℕ
  userId : ℕ
deriving DecidableEq

structure Property where
  id : ℕ
  userId : ℕ
  landlordId : ℕ
  rentAmount : ℚ
deriving DecidableEq

structure Tenant where
  id : ℕ
  userId : ℕ
  propertyId : ℕ
deriving DecidableEq

structure Policy where
  id : ℕ
  userId : ℕ
  landlordId : ℕ
  propertyId : ℕ
  tenantId : ℕ
  policyNumber : ℕ
  status : String
  coverageMonths : ℤ
  riskScore : ℚ
  decision : String
  startDate : ℤ
  endDate : ℤ
  premiumAmount : ℚ
deriving DecidableEq

structure Claim where
  id : ℕ
  userId : ℕ
  policyId : ℕ
  claimNumber : ℕ
  status : String
  amountRequested : ℚ
  monthsOfUnpaidRent : ℤ
deriving DecidableEq

structure Store where
  landlords : List Landlord
  properties : List Property
  tenants : List Tenant
  policies : List Policy
  claims : List Claim
deriving DecidableEq

/-- Modelled from the spec: `storage.getLandlord` (storage layer not in
the sources) resolves an id to its record. -/
def getLandlord (st : Store) (id : ℕ) : Option Landlord :=
  st.landlords.find? (fun l => l.id == id)

/-- Modelled from the spec: `storage.getProperty`. -/
def getProperty (st : Store) (id : ℕ) : Option Property :=
  st.properties.find? (fun p => p.id == id)

/-- Modelled from the spec: `storage.getTenant`. -/
def getTenant (st : Store) (id : ℕ) : Option Tenant :=
  st.tenants.find? (fun t => t.id == id)

/-! ## Zod insert schemas

Backend (`src/database/schema.ts`, the authority for the API):

```ts
export const insertPolicySchema = createInsertSchema(policies, {
    status: z.enum(["active", "expired", "cancelled"]).default("active"),
    riskScore: z.number(),
    premiumAmount: z.number(),
}).omit({ id: true, policyNumber: true, createdAt: true, updatedAt: true }).extend({
    startDate: z.coerce.date(),
    endDate: z.coerce.date(),
});
export const insertClaimSchema = createInsertSchema(claims, {
    status: z.enum(["pending", "approved", "rejected", "paid"]).default("pending"),
    amountRequested: z.number(),
    evidenceLinks: z.array(z.string().url()).optional(),
}).omit({ id: true, claimNumber: true, createdAt: true, updatedAt: true });
```

Note the backend policy schema bounds neither `coverageMonths` nor
`riskScore` beyond their types, and the backend claim status enum has no
`under_review`.

Client side (`client/src/types/schema/policySchema.ts` and
`client/src/types/schema/claimSchema.ts`):

```ts
status: z.enum(["active", "expired", "cancelled"]).default("active"),
coverageMonths: z.coerce.number().int().min(1, "Coverage must be at least 1 month"),
riskScore: z.coerce.number().min(0).max(100, "Risk score must be between 0 and 100"),
premiumAmount: z.coerce.number().positive("Premium amount must be positive"),
...
status: z.enum(["pending", "under_review", "approved", "rejected", "paid"]).default("pending"),
amountRequested: z.coerce.number().positive("Amount must be positive"),
```
-/

/-- The policy status enum `["active", "expired", "cancelled"]` (same
list in both zod schemas and in the controller's `includes` check). -/
def policyStatusOk (s : String) : Bool :=
  s == "active" || s == "expired" || s == "cancelled"

/-- The decision enum `["accept", "conditional_accept", "decline"]`. -/
def decisionOk (s : String) : Bool :=
  s == "accept" || s == "conditional_accept" || s == "decline"

/-- Raw policy-creation input (request body): `status` optional because
the zod schema defaults it. -/
structure PolicyInput where
  landlordId : ℕ
  propertyId : ℕ
  tenantId : ℕ
  status : Option String
  coverageMonths : ℤ
  riskScore : ℚ
  decision : String
  startDate : ℤ
  endDate : ℤ
  premiumAmount : ℚ
deriving DecidableEq

/-- Result of a successful backend `insertPolicySchema.parse`. -/
structure ParsedPolicy where
  landlordId : ℕ
  propertyId : ℕ
  tenantId : ℕ
  status : String
  coverageMonths : ℤ
  riskScore : ℚ
  decision : String
  startDate : ℤ
  endDate : ℤ
  premiumAmount : ℚ
deriving DecidableEq

/-- Backend `insertPolicySchema.parse`: enum checks (with the `"active"`
default) only — `coverageMonths`, `riskScore`, `premiumAmount` and the
dates are type-checked but not bounded. -/
def backendPolicyParse (i : PolicyInput) : Option ParsedPolicy :=
  let s := i.status.getD "active"
  if policyStatusOk s && decisionOk i.decision then
    some { landlordId := i.landlordId, propertyId := i.propertyId,
           tenantId := i.tenantId, status := s,
           coverageMonths := i.coverageMonths, riskScore := i.riskScore,
           decision := i.decision, startDate := i.startDate,
           endDate := i.endDate, premiumAmount := i.premiumAmount }
  else none

/-- Client-side `insertPolicySchema` validation
(`client/src/types/schema/policySchema.ts`): enum checks plus
`coverageMonths ≥ 1`, `0 ≤ riskScore ≤ 100`, `premiumAmount > 0`. -/
def clientPolicyOk (i : PolicyInput) : Bool :=
  policyStatusOk (i.status.getD "active") && decisionOk i.decision &&
  decide (1 ≤ i.coverageMonths) &&
  decide (0 ≤ i.riskScore) && decide (i.riskScore ≤ 100) &&
  decide (0 < i.premiumAmount)

/-- The backend claim status enum
`["pending", "approved", "rejected", "paid"]`. -/
def backendClaimStatusOk (s : String) : Bool :=
  s == "pending" || s == "approved" || s == "rejected" || s == "paid"

/-- The client claim status enum
`["pending", "under_review", "approved", "rejected", "paid"]`. -/
def clientClaimStatusOk (s : String) : Bool :=
  s == "pending" || s == "under_review" || s == "approved" ||
  s == "rejected" || s == "paid"

/-- Raw claim-creation input (request body). -/
structure ClaimInput where
  policyId : ℕ
  status : Option String
  amountRequested : ℚ
  monthsOfUnpaidRent : ℤ
deriving DecidableEq

/-- Result of a successful backend `insertClaimSchema.parse`. -/
structure ParsedClaim where
  policyId : ℕ
  status : String
  amountRequested : ℚ
  monthsOfUnpaidRent : ℤ
deriving DecidableEq

/-- Backend `insertClaimSchema.parse`: status enum check (with the
`"pending"` default); `amountRequested` is a bare `z.number()`. -/
def backendClaimParse (i : ClaimInput) : Option ParsedClaim :=
  let s := i.status.getD "pending"
  if backendClaimStatusOk s then
    some { policyId := i.policyId, status := s,
           amountRequested := i.amountRequested,
           monthsOfUnpaidRent := i.monthsOfUnpaidRent }
  else none

/-- Client-side `insertClaimSchema` validation
(`client/src/types/schema/claimSchema.ts`). -/
def clientClaimOk (i : ClaimInput) : Bool :=
  clientClaimStatusOk (i.status.getD "pending") &&
  decide (0 < i.amountRequested) && decide (0 ≤ i.monthsOfUnpaidRent)

/-! ## Policy controller

`src/controllers/policyController.ts`: `createPolicy`,
`updatePolicyStatus`, `deletePolicy`.  The storage operations they call
(`storage.createPolicy`, `storage.updatePolicy`, `storage.deletePolicy`)
are not among the sources and are modelled from the spec below. -/

/-- An HTTP response of the controller: status code, `success` flag,
message, and an optional policy payload (`data`). -/
structure Response where
  status : ℕ
  success : Bool
  message : String
  data : Option Policy
deriving DecidableEq

/-- Character-list prefix match (helper for `strIncludes`). -/
def charsMatch : List Char → List Char → Bool
  | [], _ => true
  | _ :: _, [] => false
  | a :: as, b :: bs => a == b && charsMatch as bs

/-- Character-list substring search (helper for `strIncludes`). -/
def charsHasSub (p : List Char) : List Char → Bool
  | [] => charsMatch p []
  | b :: bs => charsMatch p (b :: bs) || charsHasSub p bs

/-- JS `s.includes(pat)`: `pat` occurs as a substring of `s`. -/
def strIncludes (s pat : String) : Bool := charsHasSub pat.toList s.toList

/-- Next policy number issued by the Numbering Service (fresh by
construction: one more than the largest number in use). -/
def nextPolicyNumber (st : Store) : ℕ :=
  (st.policies.map Policy.policyNumber).foldr max 0 + 1

/-- Next free policy row id. -/
def nextPolicyId (st : Store) : ℕ :=
  (st.policies.map Policy.id).foldr max 0 + 1

/-- Modelled from the spec: `storage.createPolicy` (storage layer not in
the sources).  Persists the parsed record, with the Numbering Service
assigning a fresh `policyNumber`; the insert fails (the thrown error the
controller catches) when the `tenant_id` unique constraint declared on
the `policies` table would be violated. -/
def storageCreatePolicy (st : Store) (userId : ℕ) (p : ParsedPolicy) :
    Option (Policy × Store) :=
  if st.policies.any (fun q => q.tenantId == p.tenantId) then none
  else
    let newP : Policy :=
      { id := nextPolicyId st, userId := userId,
        landlordId := p.landlordId, propertyId := p.propertyId,
        tenantId := p.tenantId, policyNumber := nextPolicyNumber st,
        status := p.status, coverageMonths := p.coverageMonths,
        riskScore := p.riskScore, decision := p.decision,
        startDate := p.startDate, endDate := p.endDate,
        premiumAmount := p.premiumAmount }
    some (newP, { st with policies := st.policies ++ [newP] })

/-- `createPolicy` (`policyController.ts` lines 192–210): parse the body,
resolve landlord/property/tenant, check ownership in that order (403
`"Invalid landlord." / "Invalid property." / "Invalid tenant."`), then
persist; any thrown error (parse failure, storage failure) lands in the
catch-all 400. -/
def createPolicyCtrl (st : Store) (userId : ℕ) (i : PolicyInput) :
    Response × Store :=
  match backendPolicyParse i with
  | none =>
      (⟨400, false, "Invalid policy data.", none⟩, st)
  | some pd =>
      match getLandlord st pd.landlordId with
      | none => (⟨403, false, "Invalid landlord.", none⟩, st)
      | some landlord =>
        if landlord.userId ≠ userId then
          (⟨403, false, "Invalid landlord.", none⟩, st)
        else match getProperty st pd.propertyId with
        | none => (⟨403, false, "Invalid property.", none⟩, st)
        | some property =>
          if property.userId ≠ userId then
            (⟨403, false, "Invalid property.", none⟩, st)
          else match getTenant st pd.tenantId with
          | none => (⟨403, false, "Invalid tenant.", none⟩, st)
          | some tenant =>
            if tenant.userId ≠ userId then
              (⟨403, false, "Invalid tenant.", none⟩, st)
            else match storageCreatePolicy st userId pd with
            | none => (⟨400, false, "Invalid policy data.", none⟩, st)
            | some (p, st') => (⟨201, true, "", some p⟩, st')

/-- Modelled from the spec: `storage.updatePolicy` (storage layer not in
the sources).  Per the spec's interface
`updatePolicyStatus(id, userId, status) -> Policy | NotFound`: find the
policy by id and owning user, apply the patch, return the updated record;
`none` when absent or not owned. -/
def storageUpdatePolicy (st : Store) (id userId : ℕ) (newStatus : String) :
    Option (Policy × Store) :=
  match st.policies.find? (fun p => p.id == id && p.userId == userId) with
  | none => none
  | some p =>
      let p' := { p with status := newStatus }
      some (p', { st with
        policies := st.policies.map (fun q => if q.id == id then p' else q) })

/-- `updatePolicyStatus` (`policyController.ts` lines 215–232): reject a
falsy or non-enum status with 400 before touching the store; otherwise
patch via the storage layer, 404 when it returns nothing. -/
def updatePolicyStatusCtrl (st : Store) (userId id : ℕ) (s : String) :
    Response × Store :=
  if s == "" || policyStatusOk s == false then
    (⟨400, false, "Invalid status provided.", none⟩, st)
  else
    match storageUpdatePolicy st id userId s with
    | none => (⟨404, false, "Policy not found or access denied.", none⟩, st)
    | some (p, st') => (⟨200, true, "", some p⟩, st')

/-- Outcome of the modelled `storage.deletePolicy`. -/
inductive DeleteOutcome where
  | notFound : DeleteOutcome
  | thrown : String → DeleteOutcome
  | deleted : Store → DeleteOutcome

/-- Modelled from the spec: `storage.deletePolicy` (storage layer not in
the sources).  Per the spec's deletion precondition: `false` when the
policy is absent or not owned; a `ConflictError` mentioning
"active claims" when at least one claim references the policy,
regardless of that claim's status; otherwise the policy is removed. -/
def storageDeletePolicy (st : Store) (id userId : ℕ) : DeleteOutcome :=
  match st.policies.find? (fun p => p.id == id && p.userId == userId) with
  | none => .notFound
  | some _ =>
      if st.claims.any (fun c => c.policyId == id) then
        .thrown "Cannot delete a policy with active claims"
      else
        .deleted { st with
          policies := st.policies.filter (fun p => p.id != id) }

/-- `deletePolicy` (`policyController.ts` lines 237–254): 404 when the
storage layer reports no such owned policy; a thrown error whose message
includes "active claims" becomes a 409 with that message, any other
thrown error a 500. -/
def deletePolicyCtrl (st : Store) (userId id : ℕ) : Response × Store :=
  match storageDeletePolicy st id userId with
  | .notFound =>
      (⟨404, false, "Policy not found or access denied.", none⟩, st)
  | .thrown msg =>
      if strIncludes msg "active claims" then (⟨409, false, msg, none⟩, st)
      else (⟨500, false, "Failed to delete policy.", none⟩, st)
  | .deleted st' =>
      (⟨200, true, "Policy deleted successfully.", none⟩, st')

/-! ## Structural lemmas about the controllers -/

/-- The controller's landlord check `landlord && landlord.userId === userId`. -/
def landlordOk (st : Store) (uid lid : ℕ) : Bool :=
  match getLandlord st lid with
  | none => false
  | some l => l.userId == uid

/-- The controller's property check. -/
def propertyOk (st : Store) (uid pid : ℕ) : Bool :=
  match getProperty st pid with
  | none => false
  | some p => p.userId == uid

/-- The controller's tenant check. -/
def tenantOk (st : Store) (uid tid : ℕ) : Bool :=
  match getTenant st tid with
  | none => false
  | some t => t.userId == uid

/-! ## Concrete fixtures for counterexamples and witnesses -/

/-- A store with one landlord, property and tenant, all owned by user 7,
used as concrete input for counterexamples and witnesses. -/
def exStore : Store :=
  { landlords := [⟨1, 7⟩],
    properties := [⟨2, 7, 1, 1000⟩],
    tenants := [⟨3, 7, 2⟩],
    policies := [],
    claims := [] }

/-- A policy-creation request body referencing the `exStore` entities,
with a caller-chosen `endDate` unrelated to `startDate` and
`coverageMonths`. -/
def exPolicyInput : PolicyInput :=
  { landlordId := 1, propertyId := 2, tenantId := 3,
    status := some "active", coverageMonths := 12, riskScore := 40,
    decision := "accept", startDate := 0, endDate := 999,
    premiumAmount := 540 }

/-- The parse of `exPolicyInput`. -/
def exParsedPolicy : ParsedPolicy :=
  { landlordId := 1, propertyId := 2, tenantId := 3, status := "active",
    coverageMonths := 12, riskScore := 40, decision := "accept",
    startDate := 0, endDate := 999, premiumAmount := 540 }

/-- The policy `createPolicyCtrl exStore 7 exPolicyInput` creates. -/
def exCreatedPolicy : Policy :=
  { id := 1, userId := 7, landlordId := 1, propertyId := 2, tenantId := 3,
    policyNumber := 1, status := "active", coverageMonths := 12,
    riskScore := 40, decision := "accept", startDate := 0, endDate := 999,
    premiumAmount := 540 }

/-- `exStore` with the tenant's property chain owned by user 9 instead
of user 7: a cross-user reference from user 7's point of view. -/
def exOtherUserStore : Store :=
  { landlords := [⟨1, 9⟩],
    properties := [⟨2, 9, 1, 1000⟩],
    tenants := [⟨3, 9, 2⟩],
    policies := [],
    claims := [] }

/-- `exPolicyInput` with a coverage of 0 months and a risk score of 150,
both outside the claimed bounds. -/
def exBadBoundsInput : PolicyInput :=
  { exPolicyInput with coverageMonths := 0, riskScore := 150 }

/-- A policy of user 7 already insuring tenant 3 (row id 10). -/
def exPolicy : Policy :=
  { id := 10, userId := 7, landlordId := 1, propertyId := 2, tenantId := 3,
    policyNumber := 1, status := "active", coverageMonths := 12,
    riskScore := 40, decision := "accept", startDate := 0, endDate := 999,
    premiumAmount := 540 }

/-- `exStore` with `exPolicy` already stored. -/
def exStoreWithPolicy : Store := { exStore with policies := [exPolicy] }

/-- `exStore` holding `exPolicy` in the `expired` status. -/
def exExpiredStore : Store :=
  { exStore with policies := [{ exPolicy with status := "expired" }] }

/-- `exStore` holding `exPolicy` in the `cancelled` status. -/
def exCancelledStore : Store :=
  { exStore with policies := [{ exPolicy with status := "cancelled" }] }

/-- A rejected claim of user 7 against `exPolicy` (policy row 10). -/
def exRejectedClaim : Claim :=
  { id := 20, userId := 7, policyId := 10, claimNumber := 1,
    status := "rejected", amountRequested := 100,
    monthsOfUnpaidRent := 2 }

/-- `exStoreWithPolicy` with `exRejectedClaim` filed against the policy. -/
def exStoreWithClaim : Store :=
  { exStoreWithPolicy with claims := [exRejectedClaim] }

/-! ## Basic theorems about the Derivation Engine embedding -/

/-- The source's conditional chain computes exactly the spec's bracket
function. -/
theorem riskMultiplier_eq_spec (s : ℚ) :
    riskMultiplier s = riskMultiplierSpec s := by
  unfold riskMultiplier riskMultiplierSpec
  by_cases h1 : s < 50
  · simp [h1]
  · by_cases h2 : s < 75
    · simp [h1, h2, le_of_not_lt h1]
    · simp [h1, h2]

/-- Every month has between 28 and 31 days. -/
theorem daysInMonth_bounds (y m : ℤ) :
    28 ≤ daysInMonth y m ∧ daysInMonth y m ≤ 31 := by
  unfold daysInMonth
  split
  · split <;> omega
  · split <;> omega

/-- Starting from a valid date, `jsAddMonths` always lands on a valid
date (month-length and leap-year handling). -/
theorem jsAddMonths_valid (y m d k : ℤ) (h : dateValid y m d) :
    dateValid (jsAddMonths y m d k).1 (jsAddMonths y m d k).2.1
      (jsAddMonths y m d k).2.2 := by
  obtain ⟨h1, h2, h3, h4⟩ := h
  have hd31 : d ≤ 31 := le_trans h4 (daysInMonth_bounds y m).2
  unfold jsAddMonths
  set t := 12 * y + (m - 1) + k with ht
  have hm0 : 0 ≤ t % 12 := Int.emod_nonneg t (by norm_num)
  have hm1 : t % 12 < 12 := Int.emod_lt_of_pos t (by norm_num)
  have hb1 := daysInMonth_bounds (t / 12) (t % 12 + 1)
  by_cases hc : d ≤ daysInMonth (t / 12) (t % 12 + 1)
  · simp only [hc, if_true]
    exact ⟨by omega, by omega, h3, hc⟩
  · simp only [hc, if_false]
    by_cases hm12 : t % 12 + 1 = 12
    · simp only [hm12, if_true]
      have h31 : daysInMonth (t / 12) 12 = 31 := by unfold daysInMonth; norm_num
      rw [hm12] at hc
      have hb2 := daysInMonth_bounds (t / 12 + 1) 1
      refine ⟨by omega, by omega, by omega, by omega⟩
    · simp only [hm12, if_false]
      have hb3 := daysInMonth_bounds (t / 12) (t % 12 + 1 + 1)
      refine ⟨by omega, by omega, by omega, by omega⟩

/-- Exhaustive case analysis of `createPolicyCtrl`: parse failure (400),
the three ownership failures in source order (403 with the naming
message, store untouched), storage failure (400, store untouched), or
success (201 with the created policy). -/
theorem createPolicyCtrl_characterization (st : Store) (uid : ℕ)
    (i : PolicyInput) :
    (backendPolicyParse i = none ∧
      createPolicyCtrl st uid i =
        (⟨400, false, "Invalid policy data.", none⟩, st)) ∨
    (∃ pd, backendPolicyParse i = some pd ∧
      ((landlordOk st uid pd.landlordId = false ∧
          createPolicyCtrl st uid i =
            (⟨403, false, "Invalid landlord.", none⟩, st)) ∨
       (landlordOk st uid pd.landlordId = true ∧
          propertyOk st uid pd.propertyId = false ∧
          createPolicyCtrl st uid i =
            (⟨403, false, "Invalid property.", none⟩, st)) ∨
       (landlordOk st uid pd.landlordId = true ∧
          propertyOk st uid pd.propertyId = true ∧
          tenantOk st uid pd.tenantId = false ∧
          createPolicyCtrl st uid i =
            (⟨403, false, "Invalid tenant.", none⟩, st)) ∨
       (landlordOk st uid pd.landlordId = true ∧
          propertyOk st uid pd.propertyId = true ∧
          tenantOk st uid pd.tenantId = true ∧
          storageCreatePolicy st uid pd = none ∧
          createPolicyCtrl st uid i =
            (⟨400, false, "Invalid policy data.", none⟩, st)) ∨
       (∃ p st', landlordOk st uid pd.landlordId = true ∧
          propertyOk st uid pd.propertyId = true ∧
          tenantOk st uid pd.tenantId = true ∧
          storageCreatePolicy st uid pd = some (p, st') ∧
          createPolicyCtrl st uid i = (⟨201, true, "", some p⟩, st')))) := by
  cases hp : backendPolicyParse i with
  | none =>
      left
      exact ⟨rfl, by simp only [createPolicyCtrl, hp]⟩
  | some pd =>
      right
      refine ⟨pd, rfl, ?_⟩
      cases hl : getLandlord st pd.landlordId with
      | none =>
          left
          refine ⟨by simp [landlordOk, hl], ?_⟩
          simp only [createPolicyCtrl, hp, hl]
      | some l =>
          by_cases hlu : l.userId = uid
          · cases hpr : getProperty st pd.propertyId with
            | none =>
                right; left
                refine ⟨by simp [landlordOk, hl, hlu], by simp [propertyOk, hpr], ?_⟩
                simp only [createPolicyCtrl, hp, hl, hpr]
                simp [hlu]
            | some pr =>
                by_cases hpu : pr.userId = uid
                · cases htn : getTenant st pd.tenantId with
                  | none =>
                      right; right; left
                      refine ⟨by simp [landlordOk, hl, hlu],
                        by simp [propertyOk, hpr, hpu],
                        by simp [tenantOk, htn], ?_⟩
                      simp only [createPolicyCtrl, hp, hl, hpr, htn]
                      simp [hlu, hpu]
                  | some tn =>
                      by_cases htu : tn.userId = uid
                      · cases hs : storageCreatePolicy st uid pd with
                        | none =>
                            right; right; right; left
                            refine ⟨by simp [landlordOk, hl, hlu],
                              by simp [propertyOk, hpr, hpu],
                              by simp [tenantOk, htn, htu], rfl, ?_⟩
                            simp only [createPolicyCtrl, hp, hl, hpr, htn, hs]
                            simp [hlu, hpu, htu]
                        | some pair =>
                            right; right; right; right
                            refine ⟨pair.1, pair.2,
                              by simp [landlordOk, hl, hlu],
                              by simp [propertyOk, hpr, hpu],
                              by simp [tenantOk, htn, htu], rfl, ?_⟩
                            simp only [createPolicyCtrl, hp, hl, hpr, htn, hs]
                            simp [hlu, hpu, htu]
                      · right; right; left
                        refine ⟨by simp [landlordOk, hl, hlu],
                          by simp [propertyOk, hpr, hpu],
                          by simp [tenantOk, htn, htu], ?_⟩
                        simp only [createPolicyCtrl, hp, hl, hpr, htn]
                        simp [hlu, hpu, htu]
                · right; left
                  refine ⟨by simp [landlordOk, hl, hlu],
                    by simp [propertyOk, hpr, hpu], ?_⟩
                  simp only [createPolicyCtrl, hp, hl, hpr]
                  simp [hlu, hpu]
          · left
            refine ⟨by simp [landlordOk, hl, hlu], ?_⟩
            simp only [createPolicyCtrl, hp, hl]
            simp [hlu]

/-- Exhaustive case analysis of `updatePolicyStatusCtrl`: enum failure
(400, store untouched), missing/unowned policy (404, store untouched),
or success (200 with the patched policy). -/
theorem updatePolicyStatusCtrl_characterization (st : Store) (uid id : ℕ)
    (s : String) :
    ((s == "" || policyStatusOk s == false) = true ∧
      updatePolicyStatusCtrl st uid id s =
        (⟨400, false, "Invalid status provided.", none⟩, st)) ∨
    ((s == "" || policyStatusOk s == false) = false ∧
      ((storageUpdatePolicy st id uid s = none ∧
          updatePolicyStatusCtrl st uid id s =
            (⟨404, false, "Policy not found or access denied.", none⟩, st)) ∨
       (∃ p st', storageUpdatePolicy st id uid s = some (p, st') ∧
          updatePolicyStatusCtrl st uid id s =
            (⟨200, true, "", some p⟩, st')))) := by
  by_cases hb : (s == "" || policyStatusOk s == false) = true
  · left
    refine ⟨hb, ?_⟩
    simp only [updatePolicyStatusCtrl, if_pos hb]
  · right
    refine ⟨by simpa using hb, ?_⟩
    cases hu : storageUpdatePolicy st id uid s with
    | none =>
        left
        refine ⟨rfl, ?_⟩
        simp only [updatePolicyStatusCtrl, if_neg hb, hu]
    | some pair =>
        right
        refine ⟨pair.1, pair.2, rfl, ?_⟩
        simp only [updatePolicyStatusCtrl, if_neg hb, hu]

/-- When the policy is found (by id and owning user),
`storageUpdatePolicy` returns it with exactly the status patched and
rewrites that row in place. -/
theorem storageUpdatePolicy_found (st : Store) (id uid : ℕ) (s : String)
    (p : Policy)
    (h : st.policies.find? (fun q => q.id == id && q.userId == uid) = some p) :
    storageUpdatePolicy st id uid s =
      some ({ p with status := s }, { st with
        policies := st.policies.map
          (fun q => if q.id == id then { p with status := s } else q) }) := by
  simp only [storageUpdatePolicy, h]

/-- Exhaustive case analysis of `deletePolicyCtrl`: missing/unowned
policy (404), at least one referencing claim of any status (409 with a
message containing "active claims", store untouched), or deletion of
exactly that policy row (200). -/
theorem deletePolicyCtrl_characterization (st : Store) (uid id : ℕ) :
    (st.policies.find? (fun p => p.id == id && p.userId == uid) = none ∧
      deletePolicyCtrl st uid id =
        (⟨404, false, "Policy not found or access denied.", none⟩, st)) ∨
    (∃ p, st.policies.find? (fun p => p.id == id && p.userId == uid) = some p ∧
      ((st.claims.any (fun c => c.policyId == id) = true ∧
          deletePolicyCtrl st uid id =
            (⟨409, false, "Cannot delete a policy with active claims", none⟩,
              st)) ∨
       (st.claims.any (fun c => c.policyId == id) = false ∧
          deletePolicyCtrl st uid id =
            (⟨200, true, "Policy deleted successfully.", none⟩,
              { st with
                policies := st.policies.filter (fun p => p.id != id) })))) := by
  cases hf : st.policies.find? (fun p => p.id == id && p.userId == uid) with
  | none =>
      left
      refine ⟨rfl, ?_⟩
      simp only [deletePolicyCtrl, storageDeletePolicy, hf]
  | some p =>
      right
      refine ⟨p, rfl, ?_⟩
      by_cases hc : st.claims.any (fun c => c.policyId == id) = true
      · left
        refine ⟨hc, ?_⟩
        simp only [deletePolicyCtrl, storageDeletePolicy, hf, if_pos hc]
        have hinc :
            strIncludes "Cannot delete a policy with active claims"
              "active claims" = true := by decide
        simp [hinc]
      · right
        refine ⟨by simpa using hc, ?_⟩
        simp only [deletePolicyCtrl, storageDeletePolicy, hf,
          if_neg hc]

/-- A successful backend parse copies every field from the input, with
the status defaulted to `"active"`, and certifies the enum checks. -/
theorem backendPolicyParse_fields (i : PolicyInput) (pd : ParsedPolicy)
    (h : backendPolicyParse i = some pd) :
    pd.landlordId = i.landlordId ∧ pd.propertyId = i.propertyId ∧
    pd.tenantId = i.tenantId ∧ pd.status = i.status.getD "active" ∧
    pd.coverageMonths = i.coverageMonths ∧ pd.riskScore = i.riskScore ∧
    pd.decision = i.decision ∧ pd.startDate = i.startDate ∧
    pd.endDate = i.endDate ∧ pd.premiumAmount = i.premiumAmount ∧
    policyStatusOk (i.status.getD "active") = true ∧
    decisionOk i.decision = true := by
  unfold backendPolicyParse at h
  dsimp only [] at h
  split at h
  next hc =>
    obtain ⟨hc1, hc2⟩ := Bool.and_eq_true_iff.mp hc
    injection h with h1
    subst h1
    exact ⟨rfl, rfl, rfl, rfl, rfl, rfl, rfl, rfl, rfl, rfl, hc1, hc2⟩
  next => simp at h

/-- A successful `storageCreatePolicy` appends exactly one policy whose
fields come from the parsed input, whose owner is the acting user, and
whose tenant was not yet referenced by any stored policy. -/
theorem storageCreatePolicy_fields (st : Store) (uid : ℕ)
    (pd : ParsedPolicy) (p : Policy) (st' : Store)
    (h : storageCreatePolicy st uid pd = some (p, st')) :
    p.endDate = pd.endDate ∧ p.startDate = pd.startDate ∧
    p.coverageMonths = pd.coverageMonths ∧ p.tenantId = pd.tenantId ∧
    p.status = pd.status ∧ p.riskScore = pd.riskScore ∧
    p.userId = uid ∧ st'.policies = st.policies ++ [p] ∧
    st.policies.any (fun q => q.tenantId == pd.tenantId) = false := by
  unfold storageCreatePolicy at h
  split at h
  next => simp at h
  next hc =>
    injection h with h1
    obtain ⟨h2, h3⟩ := Prod.mk.injEq _ _ _ _ ▸ h1
    subst h2
    subst h3
    refine ⟨rfl, rfl, rfl, rfl, rfl, rfl, rfl, rfl, ?_⟩
    simpa using hc

/-! ## The claims -/

/-- C1, counterexample: the claim says the derived premium *equals*
`rent × 0.03 × months × riskMultiplier(score)`, but the form stores
`Math.round` of that product, so at rent 10, 1 coverage month, risk
score 40 the stored premium is 0 while the product is 0.45. -/
theorem premium_unrounded_counterexample :
    ((formPremiumAmount 10 1 40 : ℤ) : ℚ) ≠ computePremium 10 1 40 := by
  norm_num [formPremiumAmount, computePremium, riskMultiplier, jsRound]

/-- C1, amended: the derived premium equals
`Math.round(rent × 0.03 × months × riskMultiplier(score))`, where the
multiplier follows exactly the claimed brackets — 1.5 below 50, 1.0 on
[50, 75), 0.8 from 75 up, with the ties at 50 and 75 going to the lower
bracket (`riskMultiplierSpec` transcribes the claim's wording;
`formPremiumAmount` transcribes the source). -/
theorem premium_rounded_spec :
    (∀ rent months s : ℚ,
      formPremiumAmount rent months s =
        jsRound (rent * (3/100) * months * riskMultiplierSpec s)) ∧
    riskMultiplierSpec 50 = 1 ∧ riskMultiplierSpec 75 = 4/5 ∧
    (∀ s : ℚ, s < 50 → riskMultiplierSpec s = 3/2) ∧
    (∀ s : ℚ, 50 ≤ s → s < 75 → riskMultiplierSpec s = 1) ∧
    (∀ s : ℚ, 75 ≤ s → riskMultiplierSpec s = 4/5) := by
  refine ⟨?_, by norm_num [riskMultiplierSpec], by norm_num [riskMultiplierSpec],
    ?_, ?_, ?_⟩
  · intro rent months s
    unfold formPremiumAmount computePremium
    rw [riskMultiplier_eq_spec]
  · intro s h
    simp [riskMultiplierSpec, h]
  · intro s h1 h2
    simp [riskMultiplierSpec, not_lt.mpr h1, h1, h2]
  · intro s h
    have h1 : ¬ s < 50 := by linarith
    have h2 : ¬ s < 75 := by linarith
    simp [riskMultiplierSpec, h1, h2]

/-- C1, witness for `premium_rounded_spec`: the bracket clauses applied
at scores 40, 60, 80. -/
theorem premium_rounded_spec_witness :
    riskMultiplierSpec 40 = 3/2 ∧ riskMultiplierSpec 60 = 1 ∧
    riskMultiplierSpec 80 = 4/5 :=
  ⟨premium_rounded_spec.2.2.2.1 40 (by decide),
   premium_rounded_spec.2.2.2.2.1 60 (by decide) (by decide),
   premium_rounded_spec.2.2.2.2.2 80 (by decide)⟩

/-- C6, counterexample: the claim says the stored premium is the product
rounded to two decimal places, but the form rounds to a whole unit: at
rent 105, 1 coverage month, risk score 60 the product is 3.15, which
two-decimal rounding keeps at 3.15, while the stored premium is 3. -/
theorem premium_cents_counterexample :
    ((formPremiumAmount 105 1 60 : ℤ) : ℚ) ≠
      roundToCents (computePremium 105 1 60) := by
  norm_num [formPremiumAmount, computePremium, riskMultiplier, jsRound,
    roundToCents]

/-- C6, amended: the stored premium is the product rounded to the nearest
*whole* currency unit (`Math.round`), hence an integer within 1/2 of the
product; the claimed scenario rent 1000 × 12 months × score 40 still
yields exactly 540 (and score 80 yields 288). -/
theorem premium_nearest_whole_unit :
    (∀ rent months s : ℚ,
      |((formPremiumAmount rent months s : ℤ) : ℚ) -
        computePremium rent months s| ≤ 1/2) ∧
    formPremiumAmount 1000 12 40 = 540 ∧
    formPremiumAmount 1000 12 80 = 288 := by
  refine ⟨?_, ?_, ?_⟩
  · intro rent months s
    set q := computePremium rent months s with hq
    have h1 : ((jsRound q : ℤ) : ℚ) ≤ q + 1/2 := Int.floor_le (q + 1/2)
    have h2 : q + 1/2 < ((jsRound q : ℤ) : ℚ) + 1 :=
      Int.lt_floor_add_one (q + 1/2)
    rw [abs_le]
    unfold formPremiumAmount
    constructor <;> linarith
  · norm_num [formPremiumAmount, computePremium, riskMultiplier, jsRound]
  · norm_num [formPremiumAmount, computePremium, riskMultiplier, jsRound]

/-- C2, counterexample: `endDate` is independently settable by the
caller.  Two `createPolicy` requests identical except for `endDate`
(999 vs 0) both succeed, and each stores exactly the caller's `endDate`
— so the stored `endDate` is not a value derived from `startDate` and
`coverageMonths`, and at least one of the two stored policies violates
the claimed derivation. -/
theorem endDate_caller_settable_counterexample :
    ((createPolicyCtrl exStore 7 exPolicyInput).1.status = 201 ∧
      (createPolicyCtrl exStore 7 exPolicyInput).2.policies.map
        Policy.endDate = [999]) ∧
    ((createPolicyCtrl exStore 7
          { exPolicyInput with endDate := 0 }).1.status = 201 ∧
      (createPolicyCtrl exStore 7
          { exPolicyInput with endDate := 0 }).2.policies.map
        Policy.endDate = [0]) := by
  decide

/-- C2, amended: the *form* recomputes `endDate` from `startDate` and
`coverageMonths` whenever both are truthy, using JS `setMonth` calendar
arithmetic — month-length- and leap-year-aware (always landing on a valid
calendar date, with Jan 31 2024 + 1 month = Mar 2 2024 but
Jan 31 2023 + 1 month = Mar 3 2023, day overflow rolling over rather
than clamping) — while the backend `createPolicy` stores `startDate`,
`endDate` and `coverageMonths` exactly as supplied by the caller, never
recomputing `endDate`. -/
theorem endDate_form_derived_api_supplied :
    (∀ st uid i p, (createPolicyCtrl st uid i).1.data = some p →
      p.endDate = i.endDate ∧ p.startDate = i.startDate ∧
      p.coverageMonths = i.coverageMonths) ∧
    (∀ y m d k : ℤ, k ≠ 0 →
      formEndDate y m d k = some (jsAddMonths y m d k)) ∧
    (∀ y m d k : ℤ, dateValid y m d →
      dateValid (jsAddMonths y m d k).1 (jsAddMonths y m d k).2.1
        (jsAddMonths y m d k).2.2) ∧
    jsAddMonths 2024 1 31 1 = (2024, 3, 2) ∧
    jsAddMonths 2023 1 31 1 = (2023, 3, 3) := by
  refine ⟨?_, ?_, jsAddMonths_valid, by decide, by decide⟩
  case refine_2 =>
    intro y m d k hk
    simp [formEndDate, hk]
  · intro st uid i p h
    rcases createPolicyCtrl_characterization st uid i with
      ⟨_, hctrl⟩ | ⟨pd, hp, hcases⟩
    · rw [hctrl] at h; simp at h
    · rcases hcases with ⟨_, hctrl⟩ | ⟨_, _, hctrl⟩ | ⟨_, _, _, hctrl⟩ |
        ⟨_, _, _, _, hctrl⟩ | ⟨p', st', _, _, _, hs, hctrl⟩
      · rw [hctrl] at h; simp at h
      · rw [hctrl] at h; simp at h
      · rw [hctrl] at h; simp at h
      · rw [hctrl] at h; simp at h
      · rw [hctrl] at h
        simp only [Option.some_inj] at h
        obtain ⟨he, hst, hcov, _, _, _, _, _, _⟩ :=
          storageCreatePolicy_fields st uid pd p' st' hs
        obtain ⟨_, _, _, _, hcov2, _, _, hst2, he2, _, _, _⟩ :=
          backendPolicyParse_fields i pd hp
        subst h
        exact ⟨he.trans he2, hst.trans hst2, hcov.trans hcov2⟩

/-- C2, witness for `endDate_form_derived_api_supplied`: the created
policy of the concrete request stores the caller's `endDate` 999
verbatim, the form recomputes for coverage 12, and Jan 31 2024 plus one
month is a valid date. -/
theorem endDate_form_derived_api_supplied_witness :
    (exCreatedPolicy.endDate = exPolicyInput.endDate ∧
      exCreatedPolicy.startDate = exPolicyInput.startDate ∧
      exCreatedPolicy.coverageMonths = exPolicyInput.coverageMonths) ∧
    formEndDate 2024 1 31 12 = some (jsAddMonths 2024 1 31 12) ∧
    dateValid (jsAddMonths 2024 1 31 1).1 (jsAddMonths 2024 1 31 1).2.1
      (jsAddMonths 2024 1 31 1).2.2 :=
  ⟨endDate_form_derived_api_supplied.1 exStore 7 exPolicyInput
      exCreatedPolicy (by decide),
   endDate_form_derived_api_supplied.2.1 2024 1 31 12 (by decide),
   endDate_form_derived_api_supplied.2.2.1 2024 1 31 1 (by decide)⟩

/-- C4: when the parsed input's landlord, property or tenant reference
does not resolve to a record owned by the acting user, `createPolicy`
answers 403 with a message naming a failed reference (the first failing
one in source order) and leaves the store untouched; and a 201 success
certifies that all three references were valid — it never silently
succeeds. -/
theorem createPolicy_reference_errors (st : Store) (uid : ℕ)
    (i : PolicyInput) (pd : ParsedPolicy)
    (hp : backendPolicyParse i = some pd) :
    (¬(landlordOk st uid pd.landlordId = true ∧
        propertyOk st uid pd.propertyId = true ∧
        tenantOk st uid pd.tenantId = true) →
      (createPolicyCtrl st uid i).2 = st ∧
      (createPolicyCtrl st uid i).1.status = 403 ∧
      ((landlordOk st uid pd.landlordId = false ∧
          (createPolicyCtrl st uid i).1.message = "Invalid landlord.") ∨
       (propertyOk st uid pd.propertyId = false ∧
          (createPolicyCtrl st uid i).1.message = "Invalid property.") ∨
       (tenantOk st uid pd.tenantId = false ∧
          (createPolicyCtrl st uid i).1.message = "Invalid tenant."))) ∧
    ((createPolicyCtrl st uid i).1.status = 201 →
      landlordOk st uid pd.landlordId = true ∧
      propertyOk st uid pd.propertyId = true ∧
      tenantOk st uid pd.tenantId = true) := by
  rcases createPolicyCtrl_characterization st uid i with
    ⟨hnone, _⟩ | ⟨pd', hp', hcases⟩
  · rw [hnone] at hp; exact absurd hp (by simp)
  · rw [hp] at hp'
    injection hp' with hpd
    subst hpd
    rcases hcases with ⟨hl, hctrl⟩ | ⟨hl, hpr, hctrl⟩ |
      ⟨hl, hpr, htn, hctrl⟩ | ⟨hl, hpr, htn, _, hctrl⟩ |
      ⟨p', st', hl, hpr, htn, hs, hctrl⟩
    · exact ⟨fun _ => ⟨by rw [hctrl], by rw [hctrl],
        Or.inl ⟨hl, by rw [hctrl]⟩⟩,
        fun habs => by rw [hctrl] at habs; simp at habs⟩
    · exact ⟨fun _ => ⟨by rw [hctrl], by rw [hctrl],
        Or.inr (Or.inl ⟨hpr, by rw [hctrl]⟩)⟩,
        fun habs => by rw [hctrl] at habs; simp at habs⟩
    · exact ⟨fun _ => ⟨by rw [hctrl], by rw [hctrl],
        Or.inr (Or.inr ⟨htn, by rw [hctrl]⟩)⟩,
        fun habs => by rw [hctrl] at habs; simp at habs⟩
    · exact ⟨fun hno => absurd ⟨hl, hpr, htn⟩ hno,
        fun habs => by rw [hctrl] at habs; simp at habs⟩
    · exact ⟨fun hno => absurd ⟨hl, hpr, htn⟩ hno,
        fun _ => ⟨hl, hpr, htn⟩⟩

/-- C4, witness for `createPolicy_reference_errors`: creating a policy
whose references belong to user 9 while acting as user 7 answers 403
"Invalid landlord." and leaves the store untouched. -/
theorem createPolicy_reference_errors_witness :
    (createPolicyCtrl exOtherUserStore 7 exPolicyInput).2 =
      exOtherUserStore ∧
    (createPolicyCtrl exOtherUserStore 7 exPolicyInput).1.status = 403 ∧
    ((landlordOk exOtherUserStore 7 exParsedPolicy.landlordId = false ∧
        (createPolicyCtrl exOtherUserStore 7 exPolicyInput).1.message =
          "Invalid landlord.") ∨
     (propertyOk exOtherUserStore 7 exParsedPolicy.propertyId = false ∧
        (createPolicyCtrl exOtherUserStore 7 exPolicyInput).1.message =
          "Invalid property.") ∨
     (tenantOk exOtherUserStore 7 exParsedPolicy.tenantId = false ∧
        (createPolicyCtrl exOtherUserStore 7 exPolicyInput).1.message =
          "Invalid tenant.")) :=
  (createPolicy_reference_errors exOtherUserStore 7 exPolicyInput
    exParsedPolicy (by decide)).1 (by decide)

/-- C8, counterexample: the backend schema used by `createPolicy` does
not enforce `coverageMonths ≥ 1` or `0 ≤ riskScore ≤ 100`: a request
with coverage 0 months and risk score 150 is accepted (201) and the
policy is created with those values. -/
theorem bounds_not_enforced_counterexample :
    (createPolicyCtrl exStore 7 exBadBoundsInput).1.status = 201 ∧
    (createPolicyCtrl exStore 7 exBadBoundsInput).2.policies.map
      Policy.coverageMonths = [0] ∧
    (createPolicyCtrl exStore 7 exBadBoundsInput).2.policies.map
      Policy.riskScore = [150] := by
  decide

/-- C8, amended: the bounds `coverageMonths ≥ 1` and
`0 ≤ riskScore ≤ 100` are enforced only by the client-side form schema
(`client/src/types/schema/policySchema.ts`); the backend schema behind
`createPolicy` type-checks these fields without bounding them. -/
theorem bounds_client_schema_only (i : PolicyInput)
    (h : clientPolicyOk i = true) :
    1 ≤ i.coverageMonths ∧ 0 ≤ i.riskScore ∧ i.riskScore ≤ 100 := by
  unfold clientPolicyOk at h
  simp only [Bool.and_eq_true, decide_eq_true_eq] at h
  exact ⟨h.1.1.1.2, h.1.1.2, h.1.2⟩

/-- C8, witness for `bounds_client_schema_only`: applied to
`exPolicyInput`, which passes the client schema. -/
theorem bounds_client_schema_only_witness :
    1 ≤ exPolicyInput.coverageMonths ∧ 0 ≤ exPolicyInput.riskScore ∧
    exPolicyInput.riskScore ≤ 100 :=
  bounds_client_schema_only exPolicyInput (by decide)

/-- C9: `Policy.tenantId` stays unique across policies.  A `createPolicy`
request for a tenant already referenced by a stored policy (whatever its
status) fails and leaves the store unchanged — the modelled insert honors
the `tenant_id … .unique()` constraint declared on the `policies` table —
and `createPolicy` preserves no-duplicate-tenant stores. -/
theorem tenant_unique_enforced (st : Store) (uid : ℕ) (i : PolicyInput) :
    ((∃ q ∈ st.policies, q.tenantId = i.tenantId) →
      (createPolicyCtrl st uid i).1.status ≠ 201 ∧
      (createPolicyCtrl st uid i).2 = st) ∧
    ((st.policies.map Policy.tenantId).Nodup →
      ((createPolicyCtrl st uid i).2.policies.map Policy.tenantId).Nodup) := by
  rcases createPolicyCtrl_characterization st uid i with
    ⟨_, hctrl⟩ | ⟨pd, hp, hcases⟩
  · exact ⟨fun _ => ⟨by rw [hctrl]; simp, by rw [hctrl]⟩,
      fun hn => by rw [hctrl]; exact hn⟩
  · rcases hcases with ⟨_, hctrl⟩ | ⟨_, _, hctrl⟩ | ⟨_, _, _, hctrl⟩ |
      ⟨_, _, _, _, hctrl⟩ | ⟨p', st', _, _, _, hs, hctrl⟩
    · exact ⟨fun _ => ⟨by rw [hctrl]; simp, by rw [hctrl]⟩,
        fun hn => by rw [hctrl]; exact hn⟩
    · exact ⟨fun _ => ⟨by rw [hctrl]; simp, by rw [hctrl]⟩,
        fun hn => by rw [hctrl]; exact hn⟩
    · exact ⟨fun _ => ⟨by rw [hctrl]; simp, by rw [hctrl]⟩,
        fun hn => by rw [hctrl]; exact hn⟩
    · exact ⟨fun _ => ⟨by rw [hctrl]; simp, by rw [hctrl]⟩,
        fun hn => by rw [hctrl]; exact hn⟩
    · obtain ⟨_, _, _, htid, _, _, _, happ, hany⟩ :=
        storageCreatePolicy_fields st uid pd p' st' hs
      obtain ⟨_, _, htid2, _⟩ := backendPolicyParse_fields i pd hp
      have hfresh : ∀ q ∈ st.policies, q.tenantId ≠ pd.tenantId := by
        intro q hq hcontra
        have : st.policies.any (fun r => r.tenantId == pd.tenantId) = true :=
          List.any_eq_true.mpr ⟨q, hq, by simp [hcontra]⟩
        rw [hany] at this
        exact absurd this (by simp)
      constructor
      · intro hdup
        obtain ⟨q, hq, hqt⟩ := hdup
        exact absurd (hqt.trans htid2.symm) (hfresh q hq)
      · intro hn
        rw [hctrl]
        simp only [happ, List.map_append, List.map_cons, List.map_nil]
        rw [List.nodup_append]
        refine ⟨hn, List.nodup_singleton _, ?_⟩
        intro a ha hb
        simp only [List.mem_singleton] at hb
        obtain ⟨q, hq, hqa⟩ := List.mem_map.mp ha
        exact hfresh q hq (by rw [hqa, hb, htid])

/-- C9, witness for `tenant_unique_enforced`: with tenant 3 already
insured by `exPolicy`, a second `createPolicy` for tenant 3 is not a 201
and leaves the store unchanged. -/
theorem tenant_unique_enforced_witness :
    (createPolicyCtrl exStoreWithPolicy 7 exPolicyInput).1.status ≠ 201 ∧
    (createPolicyCtrl exStoreWithPolicy 7 exPolicyInput).2 =
      exStoreWithPolicy :=
  (tenant_unique_enforced exStoreWithPolicy 7 exPolicyInput).1
    ⟨exPolicy, by decide, by decide⟩

/-- C5, counterexample: the terminal states are not absorbing.
`updatePolicyStatus` moves an `expired` policy — and likewise a
`cancelled` one — back to `active` with a 200, because the controller
validates only the target status and never inspects the current one. -/
theorem terminal_not_absorbing_counterexample :
    ((updatePolicyStatusCtrl exExpiredStore 7 10 "active").1.status = 200 ∧
      (updatePolicyStatusCtrl exExpiredStore 7 10 "active").2.policies.map
        Policy.status = ["active"]) ∧
    ((updatePolicyStatusCtrl exCancelledStore 7 10 "active").1.status = 200 ∧
      (updatePolicyStatusCtrl exCancelledStore 7 10 "active").2.policies.map
        Policy.status = ["active"]) := by
  decide

/-- C5, amended: `updatePolicyStatus` moves an owned policy to *any*
status in `{active, expired, cancelled}` regardless of its current
status — `expired → active` and `cancelled → active` succeed, no
transition is rejected — while the initial status on creation is
caller-supplied and defaults to `"active"`. -/
theorem status_update_unrestricted (st : Store) (uid id : ℕ) (s : String)
    (p : Policy) (hs : policyStatusOk s = true)
    (hf : st.policies.find? (fun q => q.id == id && q.userId == uid) =
      some p) :
    updatePolicyStatusCtrl st uid id s =
      (⟨200, true, "", some { p with status := s }⟩,
       { st with policies :=
          st.policies.map (fun q =>
            if q.id == id then { p with status := s } else q) }) ∧
    (∀ i pd, backendPolicyParse i = some pd →
      pd.status = i.status.getD "active") := by
  constructor
  · have h0 : (s == "") = false := by
      cases he : s == "" with
      | false => rfl
      | true =>
          have hse : s = "" := by simpa using he
          rw [hse] at hs
          exact absurd hs (by decide)
    have hcond : (s == "" || policyStatusOk s == false) = false := by
      rw [h0, hs]; rfl
    simp only [updatePolicyStatusCtrl, hcond, Bool.false_eq_true,
      if_false, storageUpdatePolicy_found st id uid s p hf]
  · intro i pd hp
    exact (backendPolicyParse_fields i pd hp).2.2.2.1

/-- C5, witness for `status_update_unrestricted`: reactivating the
expired `exPolicy`, and parsing a request body with no status field
yields the default `"active"`. -/
theorem status_update_unrestricted_witness :
    updatePolicyStatusCtrl exExpiredStore 7 10 "active" =
      (⟨200, true, "",
        some { { exPolicy with status := "expired" } with status := "active" }⟩,
       { exExpiredStore with policies :=
          exExpiredStore.policies.map (fun q =>
            if q.id == 10
            then { { exPolicy with status := "expired" } with status := "active" }
            else q) }) ∧
    exParsedPolicy.status =
      ({ exPolicyInput with status := none } : PolicyInput).status.getD
        "active" :=
  ⟨(status_update_unrestricted exExpiredStore 7 10 "active"
      { exPolicy with status := "expired" } (by decide) (by decide)).1,
   (status_update_unrestricted exExpiredStore 7 10 "active"
      { exPolicy with status := "expired" } (by decide) (by decide)).2
      { exPolicyInput with status := none } exParsedPolicy (by decide)⟩

/-- C10: `updatePolicyStatus` rejects any status outside
`{active, expired, cancelled}` with a 400 and an untouched store, and
for a status inside the set answers 404 with an untouched store when no
policy matches the id and acting user, and 200 with the patched policy
when one does. -/
theorem update_status_validation_first (st : Store) (uid id : ℕ)
    (s : String) :
    (policyStatusOk s = false →
      updatePolicyStatusCtrl st uid id s =
        (⟨400, false, "Invalid status provided.", none⟩, st)) ∧
    (policyStatusOk s = true →
      (st.policies.find? (fun q => q.id == id && q.userId == uid) = none →
        updatePolicyStatusCtrl st uid id s =
          (⟨404, false, "Policy not found or access denied.", none⟩, st)) ∧
      (∀ p, st.policies.find? (fun q => q.id == id && q.userId == uid) =
          some p →
        (updatePolicyStatusCtrl st uid id s).1.status = 200 ∧
        (updatePolicyStatusCtrl st uid id s).1.data =
          some { p with status := s })) := by
  constructor
  · intro hbad
    have hcond : (s == "" || policyStatusOk s == false) = true := by
      rw [hbad]; simp
    simp only [updatePolicyStatusCtrl, hcond, if_true]
  · intro hok
    have h0 : (s == "") = false := by
      cases he : s == "" with
      | false => rfl
      | true =>
          have hse : s = "" := by simpa using he
          rw [hse] at hok
          exact absurd hok (by decide)
    have hcond : (s == "" || policyStatusOk s == false) = false := by
      rw [h0, hok]; rfl
    constructor
    · intro hnone
      simp only [updatePolicyStatusCtrl, hcond, Bool.false_eq_true,
        if_false, storageUpdatePolicy, hnone]
    · intro p hf
      simp only [updatePolicyStatusCtrl, hcond, Bool.false_eq_true,
        if_false, storageUpdatePolicy_found st id uid s p hf]
      exact ⟨trivial, trivial⟩

/-- C10, witness for `update_status_validation_first`: the status
`"deleted"` is rejected with a 400 and an untouched store; with the valid
status `"expired"`, a store without the policy yields 404 untouched, and
`exStoreWithPolicy` yields 200 with the patched policy. -/
theorem update_status_validation_first_witness :
    (updatePolicyStatusCtrl exStoreWithPolicy 7 10 "deleted" =
      (⟨400, false, "Invalid status provided.", none⟩, exStoreWithPolicy)) ∧
    (updatePolicyStatusCtrl exStore 7 10 "expired" =
      (⟨404, false, "Policy not found or access denied.", none⟩, exStore)) ∧
    ((updatePolicyStatusCtrl exStoreWithPolicy 7 10 "expired").1.status =
      200 ∧
     (updatePolicyStatusCtrl exStoreWithPolicy 7 10 "expired").1.data =
      some { exPolicy with status := "expired" }) :=
  ⟨(update_status_validation_first exStoreWithPolicy 7 10 "deleted").1
      (by decide),
   ((update_status_validation_first exStore 7 10 "expired").2
      (by decide)).1 (by decide),
   ((update_status_validation_first exStoreWithPolicy 7 10 "expired").2
      (by decide)).2 exPolicy (by decide)⟩

/-- C3: deleting an owned policy referenced by at least one claim — of
any status, the check never reads the claim's status — answers 409 with
a message containing "active claims" and leaves the store (policy and
claims alike) unchanged; deleting an owned policy with no referencing
claim succeeds, removing exactly that policy row. -/
theorem delete_policy_blocked_by_claims (st : Store) (uid id : ℕ)
    (p : Policy)
    (hf : st.policies.find? (fun q => q.id == id && q.userId == uid) =
      some p) :
    ((∃ c ∈ st.claims, c.policyId = id) →
      (deletePolicyCtrl st uid id).1.status = 409 ∧
      strIncludes (deletePolicyCtrl st uid id).1.message "active claims" =
        true ∧
      (deletePolicyCtrl st uid id).2 = st) ∧
    ((∀ c ∈ st.claims, c.policyId ≠ id) →
      deletePolicyCtrl st uid id =
        (⟨200, true, "Policy deleted successfully.", none⟩,
         { st with
           policies := st.policies.filter (fun q => q.id != id) })) := by
  rcases deletePolicyCtrl_characterization st uid id with
    ⟨hnone, _⟩ | ⟨p', hf', hcases⟩
  · rw [hnone] at hf; exact absurd hf (by simp)
  · constructor
    · intro hex
      obtain ⟨c, hc, hcid⟩ := hex
      have hany : st.claims.any (fun c => c.policyId == id) = true :=
        List.any_eq_true.mpr ⟨c, hc, by simp [hcid]⟩
      rcases hcases with ⟨_, hctrl⟩ | ⟨hno, _⟩
      · rw [hctrl]
        refine ⟨rfl, ?_, rfl⟩
        show strIncludes "Cannot delete a policy with active claims"
          "active claims" = true
        decide
      · rw [hany] at hno; exact absurd hno (by simp)
    · intro hnone
      have hany : st.claims.any (fun c => c.policyId == id) = false := by
        cases ha : st.claims.any (fun c => c.policyId == id) with
        | false => rfl
        | true =>
            obtain ⟨c, hc, hcid⟩ := List.any_eq_true.mp ha
            exact absurd (by simpa using hcid) (hnone c hc)
      rcases hcases with ⟨hyes, _⟩ | ⟨_, hctrl⟩
      · rw [hany] at hyes; exact absurd hyes (by simp)
      · exact hctrl

/-- C3, witness for `delete_policy_blocked_by_claims`: a single
`rejected` claim blocks deletion of policy 10 with a 409 whose message
contains "active claims" and no store change; without the claim the
deletion succeeds. -/
theorem delete_policy_blocked_by_claims_witness :
    ((deletePolicyCtrl exStoreWithClaim 7 10).1.status = 409 ∧
      strIncludes (deletePolicyCtrl exStoreWithClaim 7 10).1.message
        "active claims" = true ∧
      (deletePolicyCtrl exStoreWithClaim 7 10).2 = exStoreWithClaim) ∧
    deletePolicyCtrl exStoreWithPolicy 7 10 =
      (⟨200, true, "Policy deleted successfully.", none⟩,
       { exStoreWithPolicy with
         policies := exStoreWithPolicy.policies.filter
           (fun q => q.id != 10) }) :=
  ⟨(delete_policy_blocked_by_claims exStoreWithClaim 7 10 exPolicy
      (by decide)).1 ⟨exRejectedClaim, by decide, by decide⟩,
   (delete_policy_blocked_by_claims exStoreWithPolicy 7 10 exPolicy
      (by decide)).2 (by decide)⟩

/-- C7: the backend `insertClaimSchema` — the schema claim creation and
update parse with — accepts exactly the statuses
`{pending, approved, rejected, paid}` and rejects `under_review`, even
though the client-side claim schema (and the claim form's status
dropdown) treats `under_review` as legal; an omitted status defaults to
`"pending"`. -/
theorem claim_status_under_review_rejected :
    backendClaimParse ⟨5, some "under_review", 100, 1⟩ = none ∧
    clientClaimOk ⟨5, some "under_review", 100, 1⟩ = true ∧
    backendClaimParse ⟨5, some "pending", 100, 1⟩ =
      some ⟨5, "pending", 100, 1⟩ ∧
    backendClaimParse ⟨5, some "approved", 100, 1⟩ =
      some ⟨5, "approved", 100, 1⟩ ∧
    backendClaimParse ⟨5, some "rejected", 100, 1⟩ =
      some ⟨5, "rejected", 100, 1⟩ ∧
    backendClaimParse ⟨5, some "paid", 100, 1⟩ =
      some ⟨5, "paid", 100, 1⟩ ∧
    backendClaimParse ⟨5, some "settled", 100, 1⟩ = none ∧
    backendClaimParse ⟨5, none, 100, 1⟩ =
      some ⟨5, "pending", 100, 1⟩ := by
  decide

end RentPlatform
